import Mathlib

/-!
Shallow embedding of the core of `compare-firebird-diferent-os`: the
multi-database benchmark engine (`src/compare_firebird_diferent_os`).

Pure data and control flow are translated directly from the Python source.
Interaction with real database servers and the wall clock is made explicit
through environment records (oracles): each record states what the outside
world does at each call site (whether a call raises, which counter values a
monitoring query returns, which instants the clock yields), and the engine
definitions reproduce the Python control flow over those records.  Python
exceptions are modelled with `Except`; `None` with `Option`; Python dicts
holding counters with association lists.
-/

/-! ## Database configuration (`database/__init__.py`) -/

/-- Python's `str.lower()` on the ASCII strings the configuration checks
deal with, written as a plain map over the character list so that it
reduces definitionally (`String.toLower` is defined by well-founded
recursion and does not). -/
def pyLower (s : String) : String := ⟨s.data.map Char.toLower⟩

/-- Mirror of the `DatabaseConfig` dataclass fields.  `__post_init__` is
modelled separately by `DatabaseConfig.make`, which returns the validated
config or the `ValueError` message. -/
structure DatabaseConfig where
  db_type : String
  os_type : String
  name : String
  host : String
  port : Int
  database : String
  user : String
  password : String
  charset : String
deriving DecidableEq, Repr

/-- The db_type values accepted by `DatabaseConfig.__post_init__`. -/
def supportedDbTypes : List String := ["firebird", "mysql", "postgresql", "mariadb"]

/-- The os_type values accepted by `DatabaseConfig.__post_init__`. -/
def supportedOsTypes : List String := ["windows", "linux"]

/-- `DatabaseConfig` construction (`__init__` plus `__post_init__`,
`database/__init__.py` lines 28-57): lowercases `db_type` and `os_type`,
checks `db_type` against the supported tuple, then `os_type`, then collects
the empty ones among host/database/user/password; each failed check raises
`ValueError` (modelled as `Except.error`). -/
def DatabaseConfig.make (db_type os_type name host : String) (port : Int)
    (database user password charset : String) : Except String DatabaseConfig :=
  let db := pyLower db_type
  let os := pyLower os_type
  if supportedDbTypes.contains db = false then
    .error ("Tipo de banco invalido: " ++ db)
  else if supportedOsTypes.contains os = false then
    .error ("Tipo de SO invalido: " ++ os)
  else if host == "" || database == "" || user == "" || password == "" then
    .error ("Campos ausentes para " ++ name)
  else
    .ok ⟨db, os, name, host, port, database, user, password, charset⟩

/-- The invariant the spec states for a constructed config: non-empty
host/database/user/password and enumerated db_type/os_type. -/
def DatabaseConfig.invariant (c : DatabaseConfig) : Bool :=
  c.host != "" && c.database != "" && c.user != "" && c.password != "" &&
    supportedDbTypes.contains c.db_type && supportedOsTypes.contains c.os_type

/-- The exact condition under which `DatabaseConfig.make` succeeds, phrased
on the raw constructor arguments. -/
def DatabaseConfig.argsValid (db_type os_type host database user password : String) : Bool :=
  supportedDbTypes.contains (pyLower db_type) && supportedOsTypes.contains (pyLower os_type) &&
    host != "" && database != "" && user != "" && password != ""

/-! ## Backend factories -/

/-- The four backend variants the factories dispatch over. -/
inductive BackendKind where
  | firebird
  | mysql
  | postgresql
  | mariadb
deriving DecidableEq, Repr

/-- `DatabaseConnectionFactory.create` (`database/__init__.py` lines 112-133):
a dict keyed by the exact (already lowercased) `config.db_type`; a miss raises
`ValueError`. -/
def DatabaseConnectionFactory.create (config : DatabaseConfig) : Except String BackendKind :=
  match ([("firebird", BackendKind.firebird), ("mysql", BackendKind.mysql),
          ("postgresql", BackendKind.postgresql), ("mariadb", BackendKind.mariadb)]).lookup
        config.db_type with
  | some k => .ok k
  | none => .error ("Database type nao suportado: " ++ config.db_type)

/-- A constructed statistics-collector instance: which backend class was
chosen, holding the connection it was given. -/
structure CollectorInst (α : Type) where
  kind : BackendKind
  connection : α
deriving DecidableEq, Repr

/-- `StatisticsCollectorFactory.create` (`collectors/__init__.py` lines
74-104): a dict from lowercased `db_type` to the four collector classes; a
miss raises `ValueError`.  The repository's `collectors/__init__.py` imports
`MySQLStatsCollector` from `collectors/mysql.py`, a file that is not part of
the provided sources; its existence as the fourth variant is modelled from
the spec. -/
def StatisticsCollectorFactory.create {α : Type} (db_type : String) (connection : α) :
    Except String (CollectorInst α) :=
  match ([("firebird", BackendKind.firebird), ("mysql", BackendKind.mysql),
          ("postgresql", BackendKind.postgresql), ("mariadb", BackendKind.mariadb)]).lookup
        (pyLower db_type) with
  | some k => .ok ⟨k, connection⟩
  | none => .error ("Database type nao suportado: " ++ db_type)

/-! ## Statistics collectors (`collectors/*.py`)

Each collector holds two optional snapshots (`_stats_before`, `_stats_after`,
initialised to `None` in `StatisticsCollector.__init__`).  `capture_before`
and `capture_after` run a monitoring query whose outcome is an oracle: the
query may raise (the collector then stores `None`), return no row (the
Python code then leaves the old snapshot in place), or return a row of
counters. -/

/-- The two optional snapshots held by a collector between calls. -/
structure CollectorState (σ : Type) where
  stats_before : Option σ
  stats_after : Option σ
deriving DecidableEq, Repr

/-- `StatisticsCollector.__init__`: both snapshots start as `None`. -/
def CollectorState.initial {σ : Type} : CollectorState σ := ⟨none, none⟩

/-- Outcome of one monitoring query, as seen by `capture_before` or
`capture_after`: the query raised, returned a falsy row, or returned a row
that parses to the snapshot `s`. -/
inductive CaptureOutcome (σ : Type) where
  | raised
  | noRow
  | row (s : σ)
deriving DecidableEq, Repr

/-- `capture_before` of every collector variant: on an exception store
`None`; on a falsy row leave the previous snapshot; otherwise store the
parsed snapshot. -/
def StatisticsCollector.capture_before {σ : Type} (st : CollectorState σ)
    (o : CaptureOutcome σ) : CollectorState σ :=
  match o with
  | .raised => { st with stats_before := none }
  | .noRow => st
  | .row s => { st with stats_before := some s }

/-- `capture_after` of every collector variant, symmetric to
`StatisticsCollector.capture_before`. -/
def StatisticsCollector.capture_after {σ : Type} (st : CollectorState σ)
    (o : CaptureOutcome σ) : CollectorState σ :=
  match o with
  | .raised => { st with stats_after := none }
  | .noRow => st
  | .row s => { st with stats_after := some s }

/-- `StatisticsCollector.reset`: clear both snapshots. -/
def StatisticsCollector.reset {σ : Type} (_st : CollectorState σ) : CollectorState σ :=
  ⟨none, none⟩

/-- The counters `FirebirdStatsCollector` parses out of `MON$IO_STATS`
(`collectors/firebird.py` lines 49-59). -/
structure FirebirdSnapshot where
  seq_reads : Int
  idx_reads : Int
  inserts : Int
  updates : Int
  deletes : Int
  backouts : Int
  purges : Int
  expunges : Int
deriving DecidableEq, Repr

/-- `FirebirdStatsCollector.get_io_stats` (`collectors/firebird.py` lines
103-118): empty dict unless both snapshots are present, else the
after-minus-before delta of every counter, Firebird extras included. -/
def FirebirdStatsCollector.get_io_stats (st : CollectorState FirebirdSnapshot) :
    List (String × Int) :=
  match st.stats_before, st.stats_after with
  | some b, some a =>
      [("seq_reads", a.seq_reads - b.seq_reads),
       ("idx_reads", a.idx_reads - b.idx_reads),
       ("inserts", a.inserts - b.inserts),
       ("updates", a.updates - b.updates),
       ("deletes", a.deletes - b.deletes),
       ("backouts", a.backouts - b.backouts),
       ("purges", a.purges - b.purges),
       ("expunges", a.expunges - b.expunges)]
  | _, _ => []

/-- The `Handler_%` counters `MariaDBStatsCollector` keeps
(`collectors/mariadb.py` lines 52-59). -/
structure MariaDBSnapshot where
  handler_read_rnd_next : Int
  handler_read_key : Int
  handler_read_next : Int
  handler_write : Int
  handler_update : Int
  handler_delete : Int
deriving DecidableEq, Repr

/-- `MariaDBStatsCollector.get_io_stats` (`collectors/mariadb.py` lines
91-126): empty dict unless both snapshots are present; `seq_reads` is the
`Handler_read_rnd_next` delta and `idx_reads` the sum of the
`Handler_read_key` and `Handler_read_next` deltas. -/
def MariaDBStatsCollector.get_io_stats (st : CollectorState MariaDBSnapshot) :
    List (String × Int) :=
  match st.stats_before, st.stats_after with
  | some b, some a =>
      [("seq_reads", a.handler_read_rnd_next - b.handler_read_rnd_next),
       ("idx_reads", (a.handler_read_key - b.handler_read_key) +
          (a.handler_read_next - b.handler_read_next)),
       ("inserts", a.handler_write - b.handler_write),
       ("updates", a.handler_update - b.handler_update),
       ("deletes", a.handler_delete - b.handler_delete)]
  | _, _ => []

/-- Modelled from the spec: `collectors/mysql.py` (class
`MySQLStatsCollector`) is not among the provided sources, only its import in
`collectors/__init__.py`; per the spec's mapping table MySQL shares the
MariaDB `Handler_%` counter mapping, which `collectors/mariadb.py` also
states in its docstring ("same as MySQL"). -/
def MySQLStatsCollector.get_io_stats (st : CollectorState MariaDBSnapshot) :
    List (String × Int) :=
  MariaDBStatsCollector.get_io_stats st

/-- The `pg_stat_database` counters `PostgreSQLStatsCollector` keeps
(`collectors/postgresql.py` lines 54-62). -/
structure PostgreSQLSnapshot where
  tup_fetched : Int
  tup_returned : Int
  tup_inserted : Int
  tup_updated : Int
  tup_deleted : Int
  blks_read : Int
  blks_hit : Int
deriving DecidableEq, Repr

/-- `PostgreSQLStatsCollector.get_io_stats` (`collectors/postgresql.py`
lines 104-149): empty dict unless both snapshots are present; `seq_reads`
maps to the `tup_returned` delta and `idx_reads` to the `tup_fetched`
delta, with `blks_read`/`blks_hit` extras. -/
def PostgreSQLStatsCollector.get_io_stats (st : CollectorState PostgreSQLSnapshot) :
    List (String × Int) :=
  match st.stats_before, st.stats_after with
  | some b, some a =>
      [("seq_reads", a.tup_returned - b.tup_returned),
       ("idx_reads", a.tup_fetched - b.tup_fetched),
       ("inserts", a.tup_inserted - b.tup_inserted),
       ("updates", a.tup_updated - b.tup_updated),
       ("deletes", a.tup_deleted - b.tup_deleted),
       ("blks_read", a.blks_read - b.blks_read),
       ("blks_hit", a.blks_hit - b.blks_hit)]
  | _, _ => []

/-! ## Benchmark engine (`benchmark_new.py`)

A `QueryEnv` is the oracle for one run of the query: which of the calls the
Python code wraps raise, the four `time.perf_counter()` readings, and what
the best-effort monitoring produces.  Clock readings are modelled as
integers (ticks): the claims under study concern only the structure of the
emitted records and the literal zero written on failure, never fractional
arithmetic. -/

instance {ε α : Type} [DecidableEq ε] [DecidableEq α] : DecidableEq (Except ε α) := fun a b =>
  match a, b with
  | .error x, .error y =>
      if h : x = y then .isTrue (by rw [h]) else .isFalse (by intro hc; cases hc; exact h rfl)
  | .ok x, .ok y =>
      if h : x = y then .isTrue (by rw [h]) else .isFalse (by intro hc; cases hc; exact h rfl)
  | .error _, .ok _ => .isFalse (by intro hc; cases hc)
  | .ok _, .error _ => .isFalse (by intro hc; cases hc)

/-- Oracle for one query execution. `connectFails` covers an exception in
`DatabaseConnectionFactory.create`/`connect`/collector creation,
`executeFails` one in `execute_query` or `fetchone`, `closeFails` one in
`connection.close()`; the inner try/except blocks (plan, captures,
rowcount) have their own outcome fields. -/
structure QueryEnv where
  connectFails : Bool
  planResult : Except String (Option String)
  beforeFails : Bool
  t0 : Int

  tServerStart : Int
  executeFails : Bool
  tServerEnd : Int
  t1 : Int
  afterFails : Bool
  ioStats : List (String × Int)
  rowcount : Option Int
  closeFails : Bool
deriving DecidableEq, Repr

/-- The `server_info` record one run assembles (`benchmark_new.py`): the
dict keys `plan`, `plan_error`, `elapsed_total`, `elapsed_server`,
`latency`, the merged I/O counters, and `rowcount`. -/
structure ServerInfo where
  plan : Option String
  planError : Option String
  elapsed_total : Int
  elapsed_server : Int
  latency : Int
  ioStats : List (String × Int)
  rowcount : Option Int
deriving DecidableEq, Repr

/-- The `plan` key: set only when `get_execution_plan` returned a truthy
(non-empty) plan string (`if plan: server_info['plan'] = plan`). -/
def planField (r : Except String (Option String)) : Option String :=
  match r with
  | .ok (some p) => if p == "" then none else some p
  | .ok none => none
  | .error _ => none

/-- The `plan_error` key: set when `get_execution_plan` raised. -/
def planErrorField (r : Except String (Option String)) : Option String :=
  match r with
  | .error e => some e
  | .ok _ => none

/-- The `rowcount` key: set when the cursor has a `rowcount` attribute with
a non-negative value (`if hasattr(cursor, 'rowcount') and cursor.rowcount >= 0`).
`none` in the oracle stands for no attribute or a raise. -/
def rowcountField (r : Option Int) : Option Int :=
  match r with
  | some rc => if 0 ≤ rc then some rc else none
  | none => none

/-- `_execute_single_query` (`benchmark_new.py` lines 22-110), the worker of
concurrent mode: everything sits in one try/except, so an exception in
connecting, in `execute_query`/`fetchone` or in the final `close` yields
`(0.0, None)`; the plan is requested only when `run_number == 1`; the
monitoring pieces are best-effort. -/
def _execute_single_query (env : QueryEnv) (run_number : Nat) : Int × Option ServerInfo :=
  if env.connectFails then (0, none)
  else if env.executeFails then (0, none)
  else if env.closeFails then (0, none)
  else
    let elapsed_total := env.t1 - env.t0
    let elapsed_server := env.tServerEnd - env.tServerStart
    (elapsed_total,
     some { plan := if run_number = 1 then planField env.planResult else none,
            planError := if run_number = 1 then planErrorField env.planResult else none,
            elapsed_total := elapsed_total,
            elapsed_server := elapsed_server,
            latency := elapsed_total - elapsed_server,
            ioStats := if env.afterFails then [] else env.ioStats,
            rowcount := rowcountField env.rowcount })

/-- Oracle for one whole sequential target: the single up-front
`connect`, one `QueryEnv` per run (1-based), and the final `close`. -/
structure TargetEnv where
  connectFails : Bool
  runEnvs : Nat → QueryEnv
  closeFails : Bool

/-- The `server_info` record the sequential loop builds for run `i`
(`benchmark_new.py` lines 201-253): unlike the concurrent worker it asks for
the execution plan on every iteration. -/
def seqRunInfo (env : QueryEnv) : ServerInfo :=
  { plan := planField env.planResult,
    planError := planErrorField env.planResult,
    elapsed_total := env.t1 - env.t0,
    elapsed_server := env.tServerEnd - env.tServerStart,
    latency := (env.t1 - env.t0) - (env.tServerEnd - env.tServerStart),
    ioStats := if env.afterFails then [] else env.ioStats,
    rowcount := rowcountField env.rowcount }

/-- The sequential `for i in range(1, runs + 1)` loop body iterated from run
`i`, `n` runs remaining: an exception in `execute_query`/`fetchone` is not
caught inside `run_benchmark_for_server`, so it aborts the whole loop. -/
def seqLoop (renvs : Nat → QueryEnv) : Nat → Nat → Except String (List Int × List (Option ServerInfo))
  | _, 0 => .ok ([], [])
  | i, n + 1 =>
    let env := renvs i
    if env.executeFails then .error ("query failed at run " ++ toString i)
    else
      match seqLoop renvs (i + 1) n with
      | .error e => .error e
      | .ok (ts, ss) => .ok ((env.t1 - env.t0) :: ts, some (seqRunInfo env) :: ss)

/-- `run_benchmark_for_server` (`benchmark_new.py` lines 171-266), the
sequential mode: connect once, loop over the runs on that one connection,
close at the end; exceptions from `connect`, from `execute_query`/`fetchone`
and from the final `close` all escape to the caller. -/
def run_benchmark_for_server (te : TargetEnv) (runs : Nat) :
    Except String (List Int × List (Option ServerInfo)) :=
  if te.connectFails then .error "connect failed"
  else
    match seqLoop te.runEnvs 1 runs with
    | .error e => .error e
    | .ok r => if te.closeFails then .error "close failed" else .ok r

/-- `run_benchmark_for_server_concurrent` (`benchmark_new.py` lines
113-168): one task per run index `1..runs`, each running
`_execute_single_query`; `order` is the completion order in which
`as_completed` yields the tasks, and `results_dict` maps each run index to
its task's result; the emission loop then walks `i = 1..runs` in run order,
appending the entry when the index is present. -/
def run_benchmark_for_server_concurrent (renvs : Nat → QueryEnv) (runs : Nat)
    (order : List Nat) : List Int × List (Option ServerInfo) :=
  let results_dict := order.map fun k => (k, _execute_single_query (renvs k) k)
  let emitted := (List.range runs).filterMap fun j => results_dict.lookup (j + 1)
  (emitted.map Prod.fst, emitted.map Prod.snd)

/-- `run_benchmark` (`benchmark_new.py` lines 353-406): iterate the
configured targets in order; each target's benchmark sits in a try/except
that logs and moves on, so a per-target failure removes only that target's
entry.  The result dict keyed by `config.name` is modelled as the list of
entries in insertion order. -/
def run_benchmark (targets : List (String × TargetEnv)) (runs : Nat)
    (concurrent : Bool) (orders : String → List Nat) :
    List (String × (List Int × List (Option ServerInfo))) :=
  match targets with
  | [] => []
  | (name, te) :: rest =>
    if concurrent then
      (name, run_benchmark_for_server_concurrent te.runEnvs runs (orders name)) ::
        run_benchmark rest runs concurrent orders
    else
      match run_benchmark_for_server te runs with
      | .ok r => (name, r) :: run_benchmark rest runs concurrent orders
      | .error _ => run_benchmark rest runs concurrent orders

/-! ## Connection `close()` (`database/firebird.py` lines 39-44,
`database/mysql.py` lines 42-47, `database/postgresql.py` lines 41-46,
`database/mariadb.py` lines 38-43 — the four bodies are textually
identical)

`close` looks at the two handle attributes (`_cursor`, `_connection`,
`None` until `connect` sets them and never cleared afterwards) and calls
`close()` on each one that is set, cursor first.  There is no try/except
around either call, and no record of the secondary cursors handed out by
`get_cursor`. -/

/-- The handle releases a close call can perform.  `closeSecondaryCursor`
is in the vocabulary because the spec mentions it; the code never emits
it. -/
inductive CloseAction where
  | closeSecondaryCursor
  | closeCursor
  | closeConnection
deriving DecidableEq, Repr

/-- Which handle attributes are set (truthy) on the connection object. -/
structure CloseState where
  cursorSet : Bool
  connectionSet : Bool
deriving DecidableEq, Repr

/-- Oracle for the two driver `close()` calls: whether each raises (as an
already-closed or broken handle might). -/
structure CloseEnv where
  cursorCloseFails : Bool
  connectionCloseFails : Bool
deriving DecidableEq, Repr

/-- The shared `close()` body: `if self._cursor: self._cursor.close()`
then `if self._connection: self._connection.close()`; a raise from either
driver call propagates to the caller, skipping the rest.  Returns the
releases performed. -/
def DatabaseConnection.close (st : CloseState) (env : CloseEnv) :
    Except String (List CloseAction) :=
  if st.cursorSet then
    if env.cursorCloseFails then .error "cursor close raised"
    else if st.connectionSet then
      if env.connectionCloseFails then .error "connection close raised"
      else .ok [CloseAction.closeCursor, CloseAction.closeConnection]
    else .ok [CloseAction.closeCursor]
  else if st.connectionSet then
    if env.connectionCloseFails then .error "connection close raised"
    else .ok [CloseAction.closeConnection]
  else .ok []

/-! ## Concrete fixtures used by witnesses and counterexamples -/

/-- A run in which nothing raises: the query is timed from clock reading
`a` to clock reading `b`, no plan, no counters, no rowcount. -/
def qeOk (a b : Int) : QueryEnv :=
  { connectFails := false, planResult := .ok none, beforeFails := false,
    t0 := a, tServerStart := a, executeFails := false, tServerEnd := b, t1 := b,
    afterFails := false, ioStats := [], rowcount := none, closeFails := false }

/-- A run whose `execute_query`/`fetchone` raises. -/
def qeExecFail : QueryEnv := { qeOk 0 1 with executeFails := true }

/-- A target whose every run succeeds. -/
def teOk : TargetEnv := ⟨false, fun _ => qeOk 0 1, false⟩

/-- A target whose initial `connect` raises. -/
def teConnectFail : TargetEnv := ⟨true, fun _ => qeOk 0 1, false⟩

/-- A target on which run 3 raises inside `execute_query` and every other
run succeeds. -/
def teRun3Fails : TargetEnv := ⟨false, fun k => if k = 3 then qeExecFail else qeOk 0 1, false⟩

/-- A target on which every run succeeds and `get_execution_plan` always
returns the plan text "NATURAL". -/
def teWithPlan : TargetEnv :=
  ⟨false, fun _ => { qeOk 0 1 with planResult := .ok (some "NATURAL") }, false⟩

/-! ## Helper lemmas -/

theorem lookup_map_pair {β : Type} (f : Nat → β) :
    ∀ (order : List Nat) (k : Nat), k ∈ order →
      (order.map fun j => (j, f j)).lookup k = some (f k) := by
  intro order
  induction order with
  | nil => intro k hk; cases hk
  | cons a t ih =>
    intro k hk
    by_cases h : k = a
    · subst h; simp [List.lookup]
    · have hb : (k == a) = false := beq_eq_false_iff_ne.mpr h
      have hmem : k ∈ t := by
        rcases List.mem_cons.mp hk with h1 | h1
        · exact absurd h1 h
        · exact h1
      simp [List.lookup, hb, ih k hmem]

theorem filterMap_lookup_map_pair {β : Type} (f : Nat → β) (order : List Nat) :
    ∀ l : List Nat, (∀ j ∈ l, j + 1 ∈ order) →
      (l.filterMap fun j => (order.map fun m => (m, f m)).lookup (j + 1)) =
        l.map fun j => f (j + 1) := by
  intro l
  induction l with
  | nil => simp
  | cons a t ih =>
    intro h
    have ha : a + 1 ∈ order := h a (List.mem_cons_self a t)
    rw [List.filterMap_cons, lookup_map_pair f order (a + 1) ha,
      ih fun j hj => h j (List.mem_cons_of_mem a hj)]
    rfl

/-- Fan-in of the concurrent mode: when the completion order is any
permutation of the run indices, the emitted lists are exactly the per-run
results in run-index order. -/
theorem conc_emit_eq_map (renvs : Nat → QueryEnv) (runs : Nat) (order : List Nat)
    (h : order.Perm (List.range' 1 runs)) :
    run_benchmark_for_server_concurrent renvs runs order =
      ((List.range' 1 runs).map fun k => (_execute_single_query (renvs k) k).1,
       (List.range' 1 runs).map fun k => (_execute_single_query (renvs k) k).2) := by
  have hmem : ∀ j ∈ List.range runs, j + 1 ∈ order := by
    intro j hj
    rw [h.mem_iff, List.mem_range'_1]
    have := List.mem_range.mp hj
    omega
  simp only [run_benchmark_for_server_concurrent]
  rw [filterMap_lookup_map_pair _ order (List.range runs) hmem]
  rw [List.range'_eq_map_range]
  simp only [List.map_map, Function.comp]
  rw [Prod.mk.injEq]
  constructor <;> exact List.map_congr_left fun j _ => by simp [Nat.add_comm]

theorem execute_single_query_of_executeFails (env : QueryEnv) (k : Nat)
    (h : env.executeFails = true) : _execute_single_query env k = (0, none) := by
  unfold _execute_single_query
  cases hc : env.connectFails <;> simp [hc, h]

theorem seqLoop_error_of_fail (renvs : Nat → QueryEnv) :
    ∀ (n i k : Nat), i ≤ k → k < i + n → (renvs k).executeFails = true →
      ∃ e, seqLoop renvs i n = .error e := by
  intro n
  induction n with
  | zero => intro i k h1 h2 _; omega
  | succ m ih =>
    intro i k h1 h2 hf
    by_cases hi : (renvs i).executeFails = true
    · refine ⟨"query failed at run " ++ toString i, ?_⟩
      simp [seqLoop, hi]
    · have hik : i ≠ k := fun he => hi (he ▸ hf)
      obtain ⟨e, he⟩ := ih (i + 1) k (by omega) (by omega) hf
      exact ⟨e, by simp [seqLoop, hi, he]⟩

theorem seqLoop_ok_eq (renvs : Nat → QueryEnv) :
    ∀ (n i : Nat) (ts : List Int) (ss : List (Option ServerInfo)),
      seqLoop renvs i n = .ok (ts, ss) →
      ts = (List.range' i n).map (fun j => (renvs j).t1 - (renvs j).t0) ∧
      ss = (List.range' i n).map fun j => some (seqRunInfo (renvs j)) := by
  intro n
  induction n with
  | zero =>
    intro i ts ss h
    simp [seqLoop] at h
    simp [h.1, h.2]
  | succ m ih =>
    intro i ts ss h
    by_cases hi : (renvs i).executeFails = true
    · simp [seqLoop, hi] at h
    · rw [show seqLoop renvs i (m + 1) =
          (if (renvs i).executeFails then
            .error ("query failed at run " ++ toString i)
          else
            match seqLoop renvs (i + 1) m with
            | .error e => .error e
            | .ok (ts, ss) =>
              .ok (((renvs i).t1 - (renvs i).t0) :: ts, some (seqRunInfo (renvs i)) :: ss))
          from rfl, if_neg (by simp [hi])] at h
      cases heq : seqLoop renvs (i + 1) m with
      | error e => rw [heq] at h; cases h
      | ok r =>
        obtain ⟨ts1, ss1⟩ := r
        rw [heq] at h
        obtain ⟨h1, h2⟩ := ih (i + 1) ts1 ss1 heq
        cases h
        rw [List.range'_succ]
        simp [h1, h2]

theorem run_benchmark_for_server_ok_eq (te : TargetEnv) (runs : Nat)
    (ts : List Int) (ss : List (Option ServerInfo))
    (h : run_benchmark_for_server te runs = .ok (ts, ss)) :
    ts = (List.range' 1 runs).map (fun j => (te.runEnvs j).t1 - (te.runEnvs j).t0) ∧
    ss = (List.range' 1 runs).map fun j => some (seqRunInfo (te.runEnvs j)) := by
  unfold run_benchmark_for_server at h
  cases hc : te.connectFails with
  | true => rw [hc] at h; cases h
  | false =>
    rw [hc] at h
    simp only [Bool.false_eq_true, if_false] at h
    cases heq : seqLoop te.runEnvs 1 runs with
    | error e => rw [heq] at h; cases h
    | ok r =>
      obtain ⟨ts1, ss1⟩ := r
      rw [heq] at h
      cases hcl : te.closeFails with
      | true => rw [hcl] at h; cases h
      | false =>
        rw [hcl] at h
        simp only [Bool.false_eq_true, if_false] at h
        have h2 := Except.ok.inj h
        have hts : ts1 = ts := congrArg Prod.fst h2
        have hss : ss1 = ss := congrArg Prod.snd h2
        subst hts
        subst hss
        exact seqLoop_ok_eq te.runEnvs runs 1 ts1 ss1 heq

theorem run_benchmark_append (l1 l2 : List (String × TargetEnv)) (runs : Nat)
    (concurrent : Bool) (orders : String → List Nat) :
    run_benchmark (l1 ++ l2) runs concurrent orders =
      run_benchmark l1 runs concurrent orders ++ run_benchmark l2 runs concurrent orders := by
  induction l1 with
  | nil => rfl
  | cons hd t ih =>
    obtain ⟨name, te⟩ := hd
    cases concurrent with
    | true => simp [run_benchmark, ih]
    | false =>
      cases heq : run_benchmark_for_server te runs with
      | error e => simp [run_benchmark, heq, ih]
      | ok r => simp [run_benchmark, heq, ih]

/-! ## Claim theorems -/

/-- C3: for every db_type in the enumerated set (firebird, mysql,
postgresql, mariadb) and every connection value,
`StatisticsCollectorFactory.create` returns the concrete collector variant
for that backend — a variant exists for all four backends. -/
theorem collector_factory_covers_all_backends {α : Type} (conn : α) :
    StatisticsCollectorFactory.create "firebird" conn = .ok ⟨BackendKind.firebird, conn⟩ ∧
    StatisticsCollectorFactory.create "mysql" conn = .ok ⟨BackendKind.mysql, conn⟩ ∧
    StatisticsCollectorFactory.create "postgresql" conn = .ok ⟨BackendKind.postgresql, conn⟩ ∧
    StatisticsCollectorFactory.create "mariadb" conn = .ok ⟨BackendKind.mariadb, conn⟩ :=
  ⟨rfl, rfl, rfl, rfl⟩

/-- C5: for every collector variant, `get_io_stats()` returns an empty
mapping (and, being a total function of the snapshot state, cannot raise)
whenever the before or the after snapshot is missing — in particular on the
freshly initialised state, and on the state reached when `capture_before`
stored a snapshot and `capture_after` then raised. -/
theorem get_io_stats_empty_when_snapshot_missing :
    (∀ x : Option FirebirdSnapshot,
        FirebirdStatsCollector.get_io_stats ⟨none, x⟩ = [] ∧
        FirebirdStatsCollector.get_io_stats ⟨x, none⟩ = []) ∧
    (∀ x : Option MariaDBSnapshot,
        MariaDBStatsCollector.get_io_stats ⟨none, x⟩ = [] ∧
        MariaDBStatsCollector.get_io_stats ⟨x, none⟩ = [] ∧
        MySQLStatsCollector.get_io_stats ⟨none, x⟩ = [] ∧
        MySQLStatsCollector.get_io_stats ⟨x, none⟩ = []) ∧
    (∀ x : Option PostgreSQLSnapshot,
        PostgreSQLStatsCollector.get_io_stats ⟨none, x⟩ = [] ∧
        PostgreSQLStatsCollector.get_io_stats ⟨x, none⟩ = []) ∧
    FirebirdStatsCollector.get_io_stats CollectorState.initial = [] ∧
    (∀ s : FirebirdSnapshot,
        FirebirdStatsCollector.get_io_stats
          (StatisticsCollector.capture_after
            (StatisticsCollector.capture_before CollectorState.initial (.row s)) .raised) = []) :=
  ⟨fun x => ⟨rfl, by cases x <;> rfl⟩,
   fun x => ⟨rfl, by cases x <;> rfl, rfl, by cases x <;> rfl⟩,
   fun x => ⟨rfl, by cases x <;> rfl⟩,
   rfl,
   fun _ => rfl⟩

/-- C6: with both snapshots present, each collector returns the
after-minus-before delta for the five canonical metrics under the
documented backend mapping (Firebird MON counters one-to-one; MariaDB
seq_reads from Handler_read_rnd_next and idx_reads from the sum of the
Handler_read_key and Handler_read_next deltas; PostgreSQL seq_reads from
tup_returned and idx_reads from tup_fetched), with the backend-specific
extras (Firebird backouts/purges/expunges, PostgreSQL blks_read/blks_hit)
additionally included. -/
theorem get_io_stats_delta_mapping :
    (∀ b a : FirebirdSnapshot,
        FirebirdStatsCollector.get_io_stats ⟨some b, some a⟩ =
          [("seq_reads", a.seq_reads - b.seq_reads),
           ("idx_reads", a.idx_reads - b.idx_reads),
           ("inserts", a.inserts - b.inserts),
           ("updates", a.updates - b.updates),
           ("deletes", a.deletes - b.deletes),
           ("backouts", a.backouts - b.backouts),
           ("purges", a.purges - b.purges),
           ("expunges", a.expunges - b.expunges)]) ∧
    (∀ b a : MariaDBSnapshot,
        MariaDBStatsCollector.get_io_stats ⟨some b, some a⟩ =
          [("seq_reads", a.handler_read_rnd_next - b.handler_read_rnd_next),
           ("idx_reads", (a.handler_read_key - b.handler_read_key) +
              (a.handler_read_next - b.handler_read_next)),
           ("inserts", a.handler_write - b.handler_write),
           ("updates", a.handler_update - b.handler_update),
           ("deletes", a.handler_delete - b.handler_delete)]) ∧
    (∀ b a : PostgreSQLSnapshot,
        PostgreSQLStatsCollector.get_io_stats ⟨some b, some a⟩ =
          [("seq_reads", a.tup_returned - b.tup_returned),
           ("idx_reads", a.tup_fetched - b.tup_fetched),
           ("inserts", a.tup_inserted - b.tup_inserted),
           ("updates", a.tup_updated - b.tup_updated),
           ("deletes", a.tup_deleted - b.tup_deleted),
           ("blks_read", a.blks_read - b.blks_read),
           ("blks_hit", a.blks_hit - b.blks_hit)]) :=
  ⟨fun _ _ => rfl, fun _ _ => rfl, fun _ _ => rfl⟩

/-- C8: a successfully constructed `DatabaseConfig` always satisfies the
invariant (non-empty host/database/user/password, enumerated
db_type/os_type), and construction succeeds exactly when the arguments
pass those checks — any violating argument set raises `ValueError` inside
the constructor, before any connection attempt (`DatabaseConfig.make` is
pure construction). -/
theorem databaseConfig_make_checks_invariant (db_type os_type name host : String) (port : Int)
    (database user password charset : String) :
    (DatabaseConfig.make db_type os_type name host port database user password charset).isOk
        = DatabaseConfig.argsValid db_type os_type host database user password ∧
    Option.all DatabaseConfig.invariant
        (DatabaseConfig.make db_type os_type name host port database user password charset).toOption
      = true := by
  simp only [DatabaseConfig.make, DatabaseConfig.argsValid]
  cases hdb : supportedDbTypes.contains (pyLower db_type) with
  | false => simp [hdb, Except.isOk, Except.toBool, Except.toOption]
  | true =>
    cases hos : supportedOsTypes.contains (pyLower os_type) with
    | false => simp [hos, Except.isOk, Except.toBool, Except.toOption]
    | true =>
      cases he : (host == "" || database == "" || user == "" || password == "") with
      | true =>
        have he2 : ((host = "" ∨ database = "") ∨ user = "") ∨ password = "" := by
          simpa using he
        rcases he2 with ((h | h) | h) | h <;>
          simp [he, h, hdb, hos, Except.isOk, Except.toBool, Except.toOption]
      | false =>
        have he2 : ((¬host = "" ∧ ¬database = "") ∧ ¬user = "") ∧ ¬password = "" := by
          simpa using he
        obtain ⟨⟨⟨h1, h2⟩, h3⟩, h4⟩ := he2
        simp [he, hdb, hos, h1, h2, h3, h4, Except.isOk, Except.toBool, Except.toOption,
          DatabaseConfig.invariant, bne_iff_ne]
        constructor
        · simpa [supportedDbTypes] using hdb
        · simpa [supportedOsTypes] using hos

/-- C10 (implicit): construction lowercases `db_type` and `os_type` before
validating, so any casing of a valid enum value is accepted, the stored
fields are the lowercase forms of the inputs, and the connection factory
dispatch on the stored `db_type` (which does not lowercase again) always
finds its entry. -/
theorem databaseConfig_normalizes_case (db_type os_type name host : String) (port : Int)
    (database user password charset : String) (c : DatabaseConfig)
    (h : DatabaseConfig.make db_type os_type name host port database user password charset = .ok c) :
    c.db_type = pyLower db_type ∧ c.os_type = pyLower os_type ∧
    (DatabaseConnectionFactory.create c).isOk = true := by
  simp only [DatabaseConfig.make] at h
  cases hdb : supportedDbTypes.contains (pyLower db_type) with
  | false => rw [hdb] at h; simp at h
  | true =>
    rw [hdb] at h
    cases hos : supportedOsTypes.contains (pyLower os_type) with
    | false => rw [hos] at h; simp at h
    | true =>
      rw [hos] at h
      cases he : (host == "" || database == "" || user == "" || password == "") with
      | true => rw [he] at h; simp at h
      | false =>
        rw [he] at h
        simp only [Bool.true_eq_false, Bool.false_eq_true, if_false] at h
        have hc := Except.ok.inj h
        subst hc
        refine ⟨rfl, rfl, ?_⟩
        have hmem : pyLower db_type ∈ supportedDbTypes := by simpa using hdb
        simp only [supportedDbTypes, List.mem_cons, List.not_mem_nil, or_false] at hmem
        rcases hmem with h1 | h1 | h1 | h1 <;>
          simp [DatabaseConnectionFactory.create, h1, List.lookup, Except.isOk, Except.toBool]

/-- The config "Firebird"/"LINUX" normalizes to. -/
def cfgFirebirdLinux : DatabaseConfig :=
  ⟨"firebird", "linux", "srv", "h", 3050, "d", "u", "p", "UTF8"⟩

/-- Witness for C10 at the concrete input ("Firebird", "LINUX"): mixed-case
enum values are accepted, stored lowercased, and dispatchable. -/
theorem databaseConfig_normalizes_case_witness :
    cfgFirebirdLinux.db_type = pyLower "Firebird" ∧
    cfgFirebirdLinux.os_type = pyLower "LINUX" ∧
    (DatabaseConnectionFactory.create cfgFirebirdLinux).isOk = true :=
  databaseConfig_normalizes_case "Firebird" "LINUX" "srv" "h" 3050 "d" "u" "p" "UTF8"
    cfgFirebirdLinux (by decide)

/-- C9 (counterexample): `close()` does not swallow errors — on a
connection whose primary cursor raises from `close()` (as an already-closed
handle may), the exception propagates out of `close` instead of being
swallowed, and the connection handle is never released. -/
theorem close_raises_on_handle_error :
    DatabaseConnection.close ⟨true, true⟩ ⟨true, false⟩ = .error "cursor close raised" := rfl

/-- C9 (amended): `close()` releases the primary cursor (when set) and then
the connection (when set); it never touches a secondary cursor (those from
`get_cursor` are closed by their consumers); it has no exception handling,
so a raise from the cursor handle propagates and skips the connection
close.  The handle attributes are not cleared, so a second call simply
re-runs the same two driver calls with whatever the drivers then do. -/
theorem close_releases_primary_then_connection (st : CloseState) (env : CloseEnv) :
    (env.cursorCloseFails = false → env.connectionCloseFails = false →
      DatabaseConnection.close st env =
        .ok ((if st.cursorSet then [CloseAction.closeCursor] else []) ++
          (if st.connectionSet then [CloseAction.closeConnection] else []))) ∧
    (st.cursorSet = true → env.cursorCloseFails = true →
      DatabaseConnection.close st env = .error "cursor close raised") ∧
    (∀ acts, DatabaseConnection.close st env = .ok acts →
      CloseAction.closeSecondaryCursor ∉ acts) := by
  obtain ⟨cs, ns⟩ := st
  obtain ⟨cf, nf⟩ := env
  cases cs <;> cases ns <;> cases cf <;> cases nf <;>
    refine ⟨fun h1 h2 => ?_, fun h1 h2 => ?_, fun acts hacts => ?_⟩ <;>
    first
      | rfl
      | exact absurd h1 (by decide)
      | exact absurd h2 (by decide)
      | (cases hacts; decide)
      | cases hacts

/-- Witness for C9 (amended) on a fully connected handle whose driver
closes succeed: cursor is released, then the connection. -/
theorem close_releases_primary_then_connection_witness :
    DatabaseConnection.close ⟨true, true⟩ ⟨false, false⟩ =
      .ok ((if (true : Bool) then [CloseAction.closeCursor] else []) ++
        (if (true : Bool) then [CloseAction.closeConnection] else [])) :=
  (close_releases_primary_then_connection ⟨true, true⟩ ⟨false, false⟩).1 rfl rfl

/-- C2: in concurrent mode, whatever order the worker tasks complete in
(any permutation of the run indices), the emitted per-run lists are the
per-run results in run-index order — the i-th emitted entry (0-based) is
the result of run i+1 and every run index in 1..runs appears exactly
once. -/
theorem concurrent_emission_ordered_by_run_index (renvs : Nat → QueryEnv) (runs : Nat)
    (order : List Nat) (h : order.Perm (List.range' 1 runs)) :
    run_benchmark_for_server_concurrent renvs runs order =
      ((List.range' 1 runs).map fun k => (_execute_single_query (renvs k) k).1,
       (List.range' 1 runs).map fun k => (_execute_single_query (renvs k) k).2) :=
  conc_emit_eq_map renvs runs order h

/-- Witness for C2: three runs completing in the order 2, 3, 1 are emitted
in run order 1, 2, 3. -/
theorem concurrent_emission_ordered_witness :
    run_benchmark_for_server_concurrent (fun _ => qeOk 0 1) 3 [2, 3, 1] =
      ((List.range' 1 3).map fun k => (_execute_single_query ((fun _ => qeOk 0 1) k) k).1,
       (List.range' 1 3).map fun k => (_execute_single_query ((fun _ => qeOk 0 1) k) k).2) :=
  concurrent_emission_ordered_by_run_index (fun _ => qeOk 0 1) 3 [2, 3, 1] (by decide)

/-- C7: when benchmarking one target fails entirely (its per-target call
raises, e.g. `connect` fails in sequential mode), `run_benchmark` emits no
entry for that target while earlier and later targets' results are exactly
what they would be without it; the per-target try/except keeps the failure
from escaping `run_benchmark`, which is a total function here by
construction. -/
theorem run_benchmark_skips_failed_target (l1 l2 : List (String × TargetEnv)) (name : String)
    (te : TargetEnv) (runs : Nat) (orders : String → List Nat)
    (h : (run_benchmark_for_server te runs).isOk = false) :
    run_benchmark (l1 ++ (name, te) :: l2) runs false orders =
      run_benchmark l1 runs false orders ++ run_benchmark l2 runs false orders := by
  rw [run_benchmark_append]
  congr 1
  cases heq : run_benchmark_for_server te runs with
  | error e => simp [run_benchmark, heq]
  | ok r => rw [heq] at h; simp [Except.isOk, Except.toBool] at h

/-- Witness for C7: with target "b" unreachable between reachable "a" and
"c", the emitted results are those of "a" and "c" alone. -/
theorem run_benchmark_skips_failed_target_witness :
    run_benchmark ([("a", teOk)] ++ ("b", teConnectFail) :: [("c", teOk)]) 1 false (fun _ => []) =
      run_benchmark [("a", teOk)] 1 false (fun _ => []) ++
        run_benchmark [("c", teOk)] 1 false (fun _ => []) :=
  run_benchmark_skips_failed_target [("a", teOk)] [("c", teOk)] "b" teConnectFail 1
    (fun _ => []) (by decide)

/-- C4 (amended): the concurrent worker requests the execution plan only
when its run number is 1 (later runs carry no plan and no plan_error), but
the sequential loop requests the plan on every run — each emitted
sequential record is `seqRunInfo` of its run's environment, whose plan
field reflects that run's own `get_execution_plan` outcome. -/
theorem plan_capture_per_mode :
    (∀ (env : QueryEnv) (k : Nat), k ≠ 1 → ∀ s : ServerInfo,
        (_execute_single_query env k).2 = some s → s.plan = none ∧ s.planError = none) ∧
    (∀ env : QueryEnv, ∀ s : ServerInfo,
        (_execute_single_query env 1).2 = some s →
        s.plan = planField env.planResult ∧ s.planError = planErrorField env.planResult) ∧
    (∀ (te : TargetEnv) (runs : Nat) (ts : List Int) (ss : List (Option ServerInfo)),
        run_benchmark_for_server te runs = .ok (ts, ss) →
        ss = (List.range' 1 runs).map fun j => some (seqRunInfo (te.runEnvs j))) := by
  refine ⟨?_, ?_, ?_⟩
  · intro env k hk s hs
    cases hc : env.connectFails <;> cases hx : env.executeFails <;> cases hcl : env.closeFails <;>
      simp [_execute_single_query, hc, hx, hcl] at hs
    rw [← hs]
    simp [hk]
  · intro env s hs
    cases hc : env.connectFails <;> cases hx : env.executeFails <;> cases hcl : env.closeFails <;>
      simp [_execute_single_query, hc, hx, hcl] at hs
    rw [← hs]
    exact ⟨rfl, rfl⟩
  · exact fun te runs ts ss h => (run_benchmark_for_server_ok_eq te runs ts ss h).2

/-- C4 (counterexample): on a sequential target whose plan oracle returns
"NATURAL" on every run, run 2's emitted record also carries the captured
plan — plan capture is attempted on runs past the first in sequential
mode. -/
theorem plan_captured_on_later_sequential_runs :
    (run_benchmark_for_server teWithPlan 2).map
        (fun r => r.2.map fun s => s.map ServerInfo.plan) =
      .ok [some (some "NATURAL"), some (some "NATURAL")] := by decide

/-- Witness for C4 (amended): the concurrent worker's record for run 2
carries no plan and no plan_error. -/
theorem plan_capture_per_mode_witness :
    (seqRunInfo (qeOk 0 1)).plan = none ∧ (seqRunInfo (qeOk 0 1)).planError = none :=
  plan_capture_per_mode.1 (qeOk 0 1) 2 (by decide) (seqRunInfo (qeOk 0 1)) (by decide)

theorem getElem_map_range' {β : Type} (runs m : Nat) (hm1 : 1 ≤ m) (hm2 : m ≤ runs)
    (f : Nat → β) : ((List.range' 1 runs).map f)[m - 1]? = some (f m) := by
  rw [List.getElem?_map, List.getElem?_range' 1 1 (show m - 1 < runs by omega)]
  have h : 1 + 1 * (m - 1) = m := by omega
  rw [h]
  rfl

/-- C1 (amended): with runs = N and `execute_query`/`fetchone` raising on
run k, concurrent mode still emits N entries per target — the k-th entry is
elapsed 0 with a null stats payload, every entry equals its own run's
outcome, and every run whose calls all succeed yields a stats record with
its own elapsed time; sequential mode instead aborts the whole target: the
exception escapes `run_benchmark_for_server`, so `run_benchmark` emits no
entries at all for that target. -/
theorem failed_run_zero_in_concurrent_aborts_sequential
    (renvs : Nat → QueryEnv) (runs k : Nat) (order : List Nat) (te : TargetEnv)
    (hperm : order.Perm (List.range' 1 runs)) (hk1 : 1 ≤ k) (hk2 : k ≤ runs)
    (hfail : (renvs k).executeFails = true)
    (hseq : (te.runEnvs k).executeFails = true) :
    ((run_benchmark_for_server_concurrent renvs runs order).1.length = runs ∧
     (run_benchmark_for_server_concurrent renvs runs order).2.length = runs ∧
     (run_benchmark_for_server_concurrent renvs runs order).1[k - 1]? = some 0 ∧
     (run_benchmark_for_server_concurrent renvs runs order).2[k - 1]? = some none ∧
     (∀ j, 1 ≤ j → j ≤ runs →
        (run_benchmark_for_server_concurrent renvs runs order).1[j - 1]? =
          some (_execute_single_query (renvs j) j).1 ∧
        (run_benchmark_for_server_concurrent renvs runs order).2[j - 1]? =
          some (_execute_single_query (renvs j) j).2) ∧
     (∀ j, 1 ≤ j → j ≤ runs → (renvs j).connectFails = false →
        (renvs j).executeFails = false → (renvs j).closeFails = false →
        ∃ info : ServerInfo,
          (run_benchmark_for_server_concurrent renvs runs order).2[j - 1]? =
            some (some info) ∧
          info.elapsed_total = (renvs j).t1 - (renvs j).t0)) ∧
    (∃ e, run_benchmark_for_server te runs = .error e) := by
  have hconc := conc_emit_eq_map renvs runs order hperm
  constructor
  · rw [hconc]
    refine ⟨by simp, by simp, ?_, ?_, ?_, ?_⟩
    · rw [getElem_map_range' runs k hk1 hk2,
        execute_single_query_of_executeFails (renvs k) k hfail]
    · rw [getElem_map_range' runs k hk1 hk2,
        execute_single_query_of_executeFails (renvs k) k hfail]
    · intro j hj1 hj2
      exact ⟨getElem_map_range' runs j hj1 hj2 _, getElem_map_range' runs j hj1 hj2 _⟩
    · intro j hj1 hj2 hc hx hcl
      rw [getElem_map_range' runs j hj1 hj2]
      simp only [_execute_single_query, hc, hx, hcl, Bool.false_eq_true, if_false]
      exact ⟨_, rfl, rfl⟩
  · cases hc : te.connectFails with
    | true => exact ⟨"connect failed", by simp [run_benchmark_for_server, hc]⟩
    | false =>
      obtain ⟨e, he⟩ := seqLoop_error_of_fail te.runEnvs runs 1 k hk1 (by omega) hseq
      exact ⟨e, by simp [run_benchmark_for_server, hc, he]⟩

/-- C1 (counterexample): in sequential mode the claim fails — on a target
where run 3 of 5 raises inside `execute_query`, the per-target call errors
out instead of emitting 5 entries, and `run_benchmark` emits no entry at
all for the target. -/
theorem sequential_failed_run_aborts_target :
    run_benchmark [("t", teRun3Fails)] 5 false (fun _ => []) = [] ∧
    (run_benchmark_for_server teRun3Fails 5).isOk = false := by decide

/-- Witness for C1 (amended): five concurrent runs with run 3 failing,
completing in reverse order: slot 3 is (0, null) and the target still
errors in sequential mode. -/
theorem failed_run_zero_in_concurrent_witness :
    (run_benchmark_for_server_concurrent teRun3Fails.runEnvs 5 [5, 4, 3, 2, 1]).1[2]? =
      some 0 ∧
    (run_benchmark_for_server_concurrent teRun3Fails.runEnvs 5 [5, 4, 3, 2, 1]).2[2]? =
      some none ∧
    (run_benchmark_for_server teRun3Fails 5).isOk = false := by
  have h := failed_run_zero_in_concurrent_aborts_sequential teRun3Fails.runEnvs 5 3
    [5, 4, 3, 2, 1] teRun3Fails (by decide) (by decide) (by decide) (by decide) (by decide)
  refine ⟨h.1.2.2.1, h.1.2.2.2.1, ?_⟩
  obtain ⟨e, he⟩ := h.2
  simp [he, Except.isOk, Except.toBool]
